import Mathlib

/-!
# DRTupleStream: the replication change-log encoder

A shallow embedding of `src/ee/storage/DRTupleStream.h`.

The header carries everything the class `MockDRTupleStream` does (its three
member functions have inline bodies), the inline body of
`DRTupleStream::configure`, the record-size constants, the format version and
the record type tags.  These are transcribed from the header.

The bodies of `DRTupleStream::appendTuple`, `computeOffsets`,
`beginTransaction`, `endTransaction` and of the inherited
`TupleStreamBase::rollbackTo` are not in the header; each of them is modelled
from the written specification and is marked as such in its doc comment.  The
specification describes them twice, for the enabled stream and for the
disabled variant, and the two behaviours are kept as separate definitions.
-/

namespace voltdb

/-! ## Wire-format constants (header lines 33-40) -/

namespace DRTupleStream

/-- Size of a BEGIN_TXN record: version(1), type(1), txnid(8), sphandle(8), checksum(4). -/
def BEGIN_RECORD_SIZE : Nat := 1 + 1 + 8 + 8 + 4

/-- Size of an END_TXN record: version(1), type(1), sphandle(8), checksum(4). -/
def END_RECORD_SIZE : Nat := 1 + 1 + 8 + 4

/-- Fixed part of a row record: version(1), type(1), table signature(8), checksum(4).
The header writes the sum in the order `1 + 1 + 4 + 8`. -/
def TXN_RECORD_HEADER_SIZE : Nat := 1 + 1 + 4 + 8

/-- Format version constant, a `uint8_t`. -/
def DR_VERSION : Nat := 0

end DRTupleStream

/-- The enum `DRTupleStream::Type` (the word `Type` is reserved in Lean). -/
inductive DRRecordType where
  | INSERT
  | DELETE
  | UPDATE
  | BEGIN_TXN
  | END_TXN
  deriving DecidableEq

/-- Enumerator value of a `DRTupleStream::Type`, as declared in the header. -/
def DRRecordType.toNat : DRRecordType → Nat
  | .INSERT => 0
  | .DELETE => 1
  | .UPDATE => 2
  | .BEGIN_TXN => 3
  | .END_TXN => 4

/-- The single tag byte of a record type: the enumerator narrowed to eight bits. -/
def DRRecordType.tagByte (t : DRRecordType) : Nat := t.toNat % 256

/-! ## Collaborator types

`TableTuple`, `StreamBlock`, `CatalogId` and `TupleStreamBase` are declared in
other headers.  They are represented by the data the stream reads from them.
-/

/-- A row as the encoder sees it: the serialized row header (null bitmap and
offset table) and the serialized column payload, both as bytes. -/
structure TableTuple where
  rowHeader : List Nat
  payload : List Nat
  deriving DecidableEq

/-- A block of the buffer chain: its bytes. -/
structure StreamBlock where
  bytes : List Nat
  deriving DecidableEq

/-- One hand-off received by the transport: the block and the two flags. -/
structure PushedBlock where
  block : Option StreamBlock
  sync : Bool
  endOfStream : Bool
  deriving DecidableEq

/-- The open-transaction window: identifiers and the write offset at BEGIN time. -/
structure OpenTransaction where
  txnId : Int
  spHandle : Int
  offset : Nat
  deriving DecidableEq

/-- Modelled from the spec: the state of the base class `TupleStreamBase`, whose
header is not part of the sources.  The active buffer is the list of bytes
written so far (the write cursor is its length), `pushed` records every block
handed to the transport, `window` is the open-transaction window,
`lastCommittedSpHandle` the watermark and `maxRecordSize` the configured
maximum record size of the buffer sequencer. -/
structure TupleStreamBase where
  buffer : List Nat
  pushed : List PushedBlock
  window : Option OpenTransaction
  lastCommittedSpHandle : Int
  maxRecordSize : Nat
  deriving DecidableEq

/-- The class `DRTupleStream`: the base state and the two private fields
`m_enabled` and `m_partitionId` (a `CatalogId`). -/
structure DRTupleStream extends TupleStreamBase where
  m_enabled : Bool
  m_partitionId : Int
  deriving DecidableEq

/-- The class `MockDRTupleStream`: a `DRTupleStream` with no field of its own. -/
structure MockDRTupleStream extends DRTupleStream where
  deriving DecidableEq

/-- The fatal contract violations. -/
inductive FatalException where
  | appendOutsideTransaction
  | transactionAlreadyOpen
  | noOpenTransaction
  | recordTooLarge
  | sizeMismatch
  deriving DecidableEq

/-- Result of a call that may terminate fatally.  Both cases carry the stream
state at the moment the call ends, so that what was written before a fatal
termination stays observable. -/
inductive Outcome (σ : Type) (α : Type) where
  | ok (s : σ) (v : α)
  | fatal (s : σ) (e : FatalException)
  deriving DecidableEq

/-- Sequencing of calls: a fatal termination stops the sequence. -/
def Outcome.bind {σ α β : Type} (o : Outcome σ α) (f : σ → α → Outcome σ β) : Outcome σ β :=
  match o with
  | .ok s v => f s v
  | .fatal s e => .fatal s e

/-- The stream state carried by an outcome. -/
def Outcome.state {σ α : Type} : Outcome σ α → σ
  | .ok s _ => s
  | .fatal s _ => s

/-! ## Operations with inline bodies in the header -/

/-- Inline `DRTupleStream::configure`: `m_partitionId = partitionId;`. -/
def DRTupleStream.configure (s : DRTupleStream) (partitionId : Int) : DRTupleStream :=
  { s with m_partitionId := partitionId }

/-- Inline `MockDRTupleStream::appendTuple`: `return 0;`.  The result pairs the
stream after the call with the returned byte count. -/
def MockDRTupleStream.appendTuple (s : MockDRTupleStream) (_lastCommittedSpHandle : Int)
    (_tableHandle : Int) (_txnId : Int) (_spHandle : Int) (_tuple : TableTuple)
    (_type : DRRecordType) : MockDRTupleStream × Nat :=
  (s, 0)

/-- Inline `MockDRTupleStream::pushExportBuffer`: empty body. -/
def MockDRTupleStream.pushExportBuffer (s : MockDRTupleStream) (_block : Option StreamBlock)
    (_sync : Bool) (_endOfStream : Bool) : MockDRTupleStream :=
  s

/-- Inline `MockDRTupleStream::rollbackTo`: empty body. -/
def MockDRTupleStream.rollbackTo (s : MockDRTupleStream) (_mark : Nat) : MockDRTupleStream :=
  s

/-- The inherited `configure` called on a `MockDRTupleStream`. -/
def MockDRTupleStream.configure (s : MockDRTupleStream) (partitionId : Int) : MockDRTupleStream :=
  { toDRTupleStream := s.toDRTupleStream.configure partitionId }

/-! ## The encoder proper (bodies outside the header) -/

/-- Big-endian encoding of `v` on `w` bytes (the value is reduced modulo `256 ^ w`). -/
def encodeBytes : Nat → Nat → List Nat
  | 0, _ => []
  | w + 1, v => (v / 256 ^ w) % 256 :: encodeBytes w v

/-- An `int64_t` on eight bytes, in two's complement. -/
def encodeInt64 (v : Int) : List Nat :=
  encodeBytes 8 (v % 2 ^ 64).toNat

/-- Modelled from the spec: the record framer's last step, whose code is in the
missing `DRTupleStream.cpp`.  The checksum is computed over all the bytes of the
record written before it and appended last, on four bytes.  The checksum
function itself is the parameter `crc`. -/
def withChecksum (crc : List Nat → Nat) (body : List Nat) : List Nat :=
  body ++ encodeBytes 4 (crc body % 2 ^ 32)

/-- Modelled from the spec: the BEGIN_TXN record written by the missing
`DRTupleStream::beginTransaction`: version, type, txnId(8), spHandle(8), checksum(4). -/
def beginRecord (crc : List Nat → Nat) (txnId spHandle : Int) : List Nat :=
  withChecksum crc
    ([DRTupleStream.DR_VERSION, DRRecordType.BEGIN_TXN.tagByte] ++ encodeInt64 txnId
      ++ encodeInt64 spHandle)

/-- Modelled from the spec: the END_TXN record written by the missing
`DRTupleStream::endTransaction`: version, type, spHandle(8), checksum(4). -/
def endRecord (crc : List Nat → Nat) (spHandle : Int) : List Nat :=
  withChecksum crc
    ([DRTupleStream.DR_VERSION, DRRecordType.END_TXN.tagByte] ++ encodeInt64 spHandle)

/-- Modelled from the spec: the row record written by the missing
`DRTupleStream::appendTuple`: version, type, table signature(8), then the row
header and the row payload, then the checksum(4) over everything before it. -/
def rowRecord (crc : List Nat → Nat) (tableHandle : Int) (tuple : TableTuple)
    (type : DRRecordType) : List Nat :=
  withChecksum crc
    ([DRTupleStream.DR_VERSION, type.tagByte] ++ encodeInt64 tableHandle
      ++ tuple.rowHeader ++ tuple.payload)

/-- Modelled from the spec: the missing `DRTupleStream::computeOffsets`, the size
probe of the row encoder.  It returns the serialized size of the row header plus
the row payload, and the row header size through `rowHeaderSz` (second
component).  It writes nothing. -/
def DRTupleStream.computeOffsets (_s : DRTupleStream) (tuple : TableTuple) : Nat × Nat :=
  (tuple.rowHeader.length + tuple.payload.length, tuple.rowHeader.length)

/-- Modelled from the spec: the missing `DRTupleStream::beginTransaction`.  Valid
only from Idle (calling it while a transaction is open is fatal); a record
larger than the configured maximum is fatal; otherwise it records the window
(txnId, spHandle, current write offset) and writes a BEGIN_TXN record.  This
is the behaviour of the enabled stream; the disabled variant is modelled
separately, as `MockDRTupleStream.beginTransaction`. -/
def DRTupleStream.beginTransaction (crc : List Nat → Nat) (s : DRTupleStream)
    (txnId spHandle : Int) : Outcome DRTupleStream Unit :=
  match s.window with
  | some _ => .fatal s .transactionAlreadyOpen
  | none =>
    if s.maxRecordSize < (beginRecord crc txnId spHandle).length then
      .fatal s .recordTooLarge
    else
      .ok { s with
            buffer := s.buffer ++ beginRecord crc txnId spHandle
            window := some { txnId := txnId, spHandle := spHandle, offset := s.buffer.length } }
        ()

/-- Modelled from the spec: the missing `DRTupleStream::appendTuple`.  Calling it
while no transaction is open is fatal; the size is probed first
(`computeOffsets` plus the fixed header), a record larger than the configured
maximum is fatal, and a disagreement between the probed and the written size
is fatal; otherwise one change record is written and the byte count written
is returned. -/
def DRTupleStream.appendTuple (crc : List Nat → Nat) (s : DRTupleStream)
    (_lastCommittedSpHandle : Int) (tableHandle : Int) (_txnId : Int) (_spHandle : Int)
    (tuple : TableTuple) (type : DRRecordType) : Outcome DRTupleStream Nat :=
  match s.window with
  | none => .fatal s .appendOutsideTransaction
  | some _ =>
    if s.maxRecordSize < (s.computeOffsets tuple).1 + DRTupleStream.TXN_RECORD_HEADER_SIZE then
      .fatal s .recordTooLarge
    else if (rowRecord crc tableHandle tuple type).length
        ≠ (s.computeOffsets tuple).1 + DRTupleStream.TXN_RECORD_HEADER_SIZE then
      .fatal s .sizeMismatch
    else
      .ok { s with buffer := s.buffer ++ rowRecord crc tableHandle tuple type }
        (rowRecord crc tableHandle tuple type).length

/-- Modelled from the spec: the missing `DRTupleStream::endTransaction`.  Valid
only from Open; it writes an END_TXN record, sets the last-committed watermark
to `spHandle` and closes the window. -/
def DRTupleStream.endTransaction (crc : List Nat → Nat) (s : DRTupleStream)
    (spHandle : Int) : Outcome DRTupleStream Unit :=
  match s.window with
  | none => .fatal s .noOpenTransaction
  | some _ =>
    if s.maxRecordSize < (endRecord crc spHandle).length then
      .fatal s .recordTooLarge
    else
      .ok { s with
            buffer := s.buffer ++ endRecord crc spHandle
            window := none
            lastCommittedSpHandle := spHandle }
        ()

/-- Modelled from the spec: the missing `DRTupleStream::pushExportBuffer` of the
enabled stream, the hand-off entry point: the block is passed to the transport
with the two flags. -/
def DRTupleStream.pushExportBuffer (s : DRTupleStream) (block : Option StreamBlock)
    (sync : Bool) (endOfStream : Bool) : DRTupleStream :=
  { s with pushed := s.pushed ++ [{ block := block, sync := sync, endOfStream := endOfStream }] }

/-- Modelled from the spec: the rollback of the enabled stream, inherited from
the missing `TupleStreamBase`: the write cursor is truncated back to `mark`,
discarding every byte written since, and the stream is Idle again. -/
def DRTupleStream.rollbackTo (s : DRTupleStream) (mark : Nat) : DRTupleStream :=
  { s with buffer := s.buffer.take mark, window := none }

/-- The arguments of one `appendTuple` call. -/
structure AppendArgs where
  lastCommittedSpHandle : Int
  tableHandle : Int
  txnId : Int
  spHandle : Int
  tuple : TableTuple
  type : DRRecordType
  deriving DecidableEq

/-- The total size of the row record that `a` asks for. -/
def AppendArgs.recordSize (a : AppendArgs) : Nat :=
  DRTupleStream.TXN_RECORD_HEADER_SIZE + a.tuple.rowHeader.length + a.tuple.payload.length

/-- The bytes of the row records of a run of `appendTuple` calls, in order. -/
def rowRecords (crc : List Nat → Nat) : List AppendArgs → List Nat
  | [] => []
  | a :: rest => rowRecord crc a.tableHandle a.tuple a.type ++ rowRecords crc rest

/-- A run of `appendTuple` calls on the enabled stream, collecting the returned
byte counts; it stops at the first fatal call. -/
def DRTupleStream.appendAll (crc : List Nat → Nat) :
    DRTupleStream → List AppendArgs → Outcome DRTupleStream (List Nat)
  | s, [] => .ok s []
  | s, a :: rest =>
    (s.appendTuple crc a.lastCommittedSpHandle a.tableHandle a.txnId a.spHandle a.tuple a.type).bind
      fun s1 n => (DRTupleStream.appendAll crc s1 rest).bind fun s2 ns => .ok s2 (n :: ns)

/-- One whole transaction on the enabled stream: `beginTransaction`, one
`appendTuple`, `endTransaction`. -/
def DRTupleStream.singleRowTransaction (crc : List Nat → Nat) (s : DRTupleStream)
    (txnId spHandle : Int) (a : AppendArgs) (endSpHandle : Int) : Outcome DRTupleStream Unit :=
  (s.beginTransaction crc txnId spHandle).bind fun s1 _ =>
    (s1.appendTuple crc a.lastCommittedSpHandle a.tableHandle a.txnId a.spHandle a.tuple a.type).bind
      fun s2 _ => s2.endTransaction crc endSpHandle

/-! ## Call sequences on the disabled variant -/

/-- Modelled from the spec: `beginTransaction` called on the disabled variant.
`MockDRTupleStream` does not redefine it, and the body of
`DRTupleStream::beginTransaction` is not in the header, so what that body does
on a disabled stream is taken from the specification: the disabled variant is
the no-op variant, which satisfies the same contract without performing any
encoding or buffering.  Nothing is written and the stream is returned as it
was; `DRTupleStream.beginTransaction` above is the behaviour of the enabled
stream. -/
def MockDRTupleStream.beginTransaction (s : MockDRTupleStream) (_txnId : Int)
    (_spHandle : Int) : MockDRTupleStream :=
  s

/-- Modelled from the spec: `endTransaction` called on the disabled variant.  As
for `beginTransaction`, the body is not in the header and the mock does not
redefine it; the disabled variant performs no encoding or buffering, so the
stream is returned as it was. -/
def MockDRTupleStream.endTransaction (s : MockDRTupleStream) (_spHandle : Int) :
    MockDRTupleStream :=
  s

/-- A freshly built stream with an empty buffer, used in the examples: Idle,
nothing pushed, partition 0, records of up to 2 MiB accepted. -/
def freshStream : DRTupleStream :=
  { buffer := [], pushed := [], window := none, lastCommittedSpHandle := 0,
    maxRecordSize := 2097152, m_enabled := true, m_partitionId := 0 }

/-- A stand-in checksum for the examples: the sum of the bytes. -/
def sumChecksum (bytes : List Nat) : Nat := bytes.sum

/-- A row with a two-byte row header and a twenty-byte payload. -/
def exampleTuple : TableTuple :=
  { rowHeader := [0, 0], payload := List.replicate 20 7 }

/-- The `appendTuple` call of the example: an INSERT on table signature 42. -/
def exampleAppend : AppendArgs :=
  { lastCommittedSpHandle := 4999, tableHandle := 42, txnId := 100, spHandle := 5000,
    tuple := exampleTuple, type := .INSERT }

/-! ## Size lemmas for the records -/

theorem encodeBytes_length (w v : Nat) : (encodeBytes w v).length = w := by
  induction w with
  | zero => rfl
  | succ n ih => simp [encodeBytes, ih]

theorem encodeInt64_length (v : Int) : (encodeInt64 v).length = 8 := by
  simp [encodeInt64, encodeBytes_length]

theorem withChecksum_length (crc : List Nat → Nat) (body : List Nat) :
    (withChecksum crc body).length = body.length + 4 := by
  simp [withChecksum, encodeBytes_length]

theorem beginRecord_length (crc : List Nat → Nat) (txnId spHandle : Int) :
    (beginRecord crc txnId spHandle).length = DRTupleStream.BEGIN_RECORD_SIZE := by
  simp [beginRecord, withChecksum_length, encodeInt64_length, DRTupleStream.BEGIN_RECORD_SIZE]

theorem endRecord_length (crc : List Nat → Nat) (spHandle : Int) :
    (endRecord crc spHandle).length = DRTupleStream.END_RECORD_SIZE := by
  simp [endRecord, withChecksum_length, encodeInt64_length, DRTupleStream.END_RECORD_SIZE]

theorem rowRecord_length (crc : List Nat → Nat) (tableHandle : Int) (tuple : TableTuple)
    (type : DRRecordType) :
    (rowRecord crc tableHandle tuple type).length
      = DRTupleStream.TXN_RECORD_HEADER_SIZE + tuple.rowHeader.length + tuple.payload.length := by
  simp [rowRecord, withChecksum_length, encodeInt64_length, DRTupleStream.TXN_RECORD_HEADER_SIZE]
  omega

/-! ## The disabled variant, call by call -/

/-- C1: for every combination of arguments, the disabled-mode `appendTuple`
returns the byte count 0 (and hands back the stream it was called on). -/
theorem mock_appendTuple_returns_zero (s : MockDRTupleStream) (lastCommittedSpHandle : Int)
    (tableHandle : Int) (txnId : Int) (spHandle : Int) (tuple : TableTuple)
    (type : DRRecordType) :
    (s.appendTuple lastCommittedSpHandle tableHandle txnId spHandle tuple type).2 = 0
      ∧ (s.appendTuple lastCommittedSpHandle tableHandle txnId spHandle tuple type).1 = s :=
  ⟨rfl, rfl⟩

/-- C2: for every block and every value of the two flags, the disabled-mode
`pushExportBuffer` leaves the whole stream unchanged: partition identity,
enabled flag, all buffer state, and the list of blocks the transport received. -/
theorem mock_pushExportBuffer_unchanged (s : MockDRTupleStream) (block : Option StreamBlock)
    (sync : Bool) (endOfStream : Bool) :
    s.pushExportBuffer block sync endOfStream = s
      ∧ (s.pushExportBuffer block sync endOfStream).m_partitionId = s.m_partitionId
      ∧ (s.pushExportBuffer block sync endOfStream).m_enabled = s.m_enabled
      ∧ (s.pushExportBuffer block sync endOfStream).toTupleStreamBase = s.toTupleStreamBase
      ∧ (s.pushExportBuffer block sync endOfStream).pushed = s.pushed :=
  ⟨rfl, rfl, rfl, rfl, rfl⟩

/-- C9: for every mark, also one beyond the current write offset, the
disabled-mode `rollbackTo` leaves the whole stream unchanged: the write cursor
does not move and no byte is discarded. -/
theorem mock_rollbackTo_unchanged (s : MockDRTupleStream) (mark : Nat) :
    s.rollbackTo mark = s
      ∧ (s.rollbackTo mark).buffer = s.buffer
      ∧ (s.rollbackTo mark).buffer.length = s.buffer.length
      ∧ (s.rollbackTo (s.buffer.length + 1 + mark)) = s :=
  ⟨rfl, rfl, rfl, rfl⟩

/-! ## Constants and tags -/

/-- C4: the three fixed record sizes are the sums of their field widths and
equal the totals of the wire-format table: 22, 14 and 14. -/
theorem record_sizes_match_table :
    DRTupleStream.BEGIN_RECORD_SIZE = 1 + 1 + 8 + 8 + 4
      ∧ DRTupleStream.BEGIN_RECORD_SIZE = 22
      ∧ DRTupleStream.END_RECORD_SIZE = 1 + 1 + 8 + 4
      ∧ DRTupleStream.END_RECORD_SIZE = 14
      ∧ DRTupleStream.TXN_RECORD_HEADER_SIZE = 1 + 1 + 8 + 4
      ∧ DRTupleStream.TXN_RECORD_HEADER_SIZE = 14 := by
  decide

/-- C10: the record type tags are a one-byte injective encoding: the five
enumerators are 0, 1, 2, 3, 4, each below 256 like `DR_VERSION`, the map from a
type to its tag byte is injective, and no change-record tag equals a
transaction-marker tag. -/
theorem type_tags_injective_one_byte :
    (DRRecordType.INSERT.toNat = 0 ∧ DRRecordType.DELETE.toNat = 1 ∧ DRRecordType.UPDATE.toNat = 2
        ∧ DRRecordType.BEGIN_TXN.toNat = 3 ∧ DRRecordType.END_TXN.toNat = 4)
      ∧ (∀ t : DRRecordType, t.toNat < 256 ∧ t.tagByte = t.toNat)
      ∧ DRTupleStream.DR_VERSION = 0 ∧ DRTupleStream.DR_VERSION < 256
      ∧ Function.Injective DRRecordType.tagByte
      ∧ (∀ c ∈ [DRRecordType.INSERT, DRRecordType.DELETE, DRRecordType.UPDATE],
          ∀ m ∈ [DRRecordType.BEGIN_TXN, DRRecordType.END_TXN], c.tagByte ≠ m.tagByte)
      ∧ (∀ t : DRRecordType, t.tagByte ∈ [0, 1, 2] ↔ t ∈ [DRRecordType.INSERT, DRRecordType.DELETE, DRRecordType.UPDATE])
      ∧ (∀ t : DRRecordType, t.tagByte ∈ [3, 4] ↔ t ∈ [DRRecordType.BEGIN_TXN, DRRecordType.END_TXN]) := by
  refine ⟨⟨rfl, rfl, rfl, rfl, rfl⟩, ?_, rfl, by decide, ?_, by decide, ?_, ?_⟩
  · intro t; cases t <;> decide
  · intro a b h; cases a <;> cases b <;> first | rfl | (exact absurd h (by decide))
  · intro t; cases t <;> decide
  · intro t; cases t <;> decide

/-! ## Configuration -/

/-- C6: for every stream and every partition identity p, `configure p` yields a
stream whose partition identity is p and in which the enabled flag and the
whole inherited buffer state are unchanged: no byte is written and no
transaction is opened. -/
theorem configure_sets_only_partition (s : DRTupleStream) (p : Int) :
    (s.configure p).m_partitionId = p
      ∧ (s.configure p).m_enabled = s.m_enabled
      ∧ (s.configure p).toTupleStreamBase = s.toTupleStreamBase
      ∧ (s.configure p).buffer = s.buffer
      ∧ (s.configure p).window = s.window
      ∧ (s.configure p).pushed = s.pushed :=
  ⟨rfl, rfl, rfl, rfl, rfl, rfl⟩

/-! ## Call sequences on the disabled variant -/

theorem beginTransaction_ok (crc : List Nat → Nat) (s : DRTupleStream) (txnId spHandle : Int)
    (hidle : s.window = none)
    (hbegin : DRTupleStream.BEGIN_RECORD_SIZE ≤ s.maxRecordSize) :
    s.beginTransaction crc txnId spHandle
      = .ok { s with
              buffer := s.buffer ++ beginRecord crc txnId spHandle
              window := some { txnId := txnId, spHandle := spHandle, offset := s.buffer.length } }
          () := by
  have hlen : ¬ s.maxRecordSize < (beginRecord crc txnId spHandle).length := by
    rw [beginRecord_length]; omega
  simp only [DRTupleStream.beginTransaction, hidle]
  rw [if_neg hlen]

theorem appendTuple_ok (crc : List Nat → Nat) (s : DRTupleStream) (a : AppendArgs)
    (hopen : s.window.isSome = true) (hfit : a.recordSize ≤ s.maxRecordSize) :
    s.appendTuple crc a.lastCommittedSpHandle a.tableHandle a.txnId a.spHandle a.tuple a.type
      = .ok { s with buffer := s.buffer ++ rowRecord crc a.tableHandle a.tuple a.type }
          a.recordSize := by
  obtain ⟨w, hw⟩ := Option.isSome_iff_exists.mp hopen
  have hlen := rowRecord_length crc a.tableHandle a.tuple a.type
  have h1 : ¬ s.maxRecordSize
      < (s.computeOffsets a.tuple).1 + DRTupleStream.TXN_RECORD_HEADER_SIZE := by
    simp only [DRTupleStream.computeOffsets, AppendArgs.recordSize] at hfit ⊢
    omega
  have h2 : ¬ ((rowRecord crc a.tableHandle a.tuple a.type).length
      ≠ (s.computeOffsets a.tuple).1 + DRTupleStream.TXN_RECORD_HEADER_SIZE) := by
    simp only [DRTupleStream.computeOffsets, hlen]
    omega
  simp only [DRTupleStream.appendTuple, hw]
  rw [if_neg h1, if_neg h2, hlen]
  rfl

theorem endTransaction_ok (crc : List Nat → Nat) (s : DRTupleStream) (spHandle : Int)
    (hopen : s.window.isSome = true)
    (hend : DRTupleStream.END_RECORD_SIZE ≤ s.maxRecordSize) :
    s.endTransaction crc spHandle
      = .ok { s with
              buffer := s.buffer ++ endRecord crc spHandle
              window := none
              lastCommittedSpHandle := spHandle }
          () := by
  obtain ⟨w, hw⟩ := Option.isSome_iff_exists.mp hopen
  have hlen : ¬ s.maxRecordSize < (endRecord crc spHandle).length := by
    rw [endRecord_length]; omega
  simp only [DRTupleStream.endTransaction, hw]
  rw [if_neg hlen]

theorem rowRecords_length (crc : List Nat → Nat) (args : List AppendArgs) :
    (rowRecords crc args).length = (args.map AppendArgs.recordSize).sum := by
  induction args with
  | nil => rfl
  | cons a rest ih =>
    simp [rowRecords, ih, rowRecord_length, AppendArgs.recordSize]

theorem appendAll_ok (crc : List Nat → Nat) (s : DRTupleStream) (args : List AppendArgs)
    (hopen : s.window.isSome = true) (hfit : ∀ a ∈ args, a.recordSize ≤ s.maxRecordSize) :
    s.appendAll crc args
      = .ok { s with buffer := s.buffer ++ rowRecords crc args }
          (args.map AppendArgs.recordSize) := by
  induction args generalizing s with
  | nil => simp [DRTupleStream.appendAll, rowRecords]
  | cons a rest ih =>
    have h1 := appendTuple_ok crc s a hopen (hfit a (List.mem_cons_self a rest))
    have h2 := ih { s with buffer := s.buffer ++ rowRecord crc a.tableHandle a.tuple a.type }
      hopen (fun b hb => hfit b (List.mem_cons_of_mem a hb))
    simp only [DRTupleStream.appendAll, h1, Outcome.bind, h2, rowRecords, List.map_cons,
      List.append_assoc]

/-- C5: for every row header and every row payload, of any sizes, a
transaction made of `beginTransaction`, one `appendTuple` and `endTransaction`
on an idle stream that accepts the records runs to its end and adds to the
byte stream exactly the BEGIN record, the row record and the END record, of
total length BEGIN_RECORD_SIZE + (TXN_RECORD_HEADER_SIZE + rowHeaderSize + p)
+ END_RECORD_SIZE, that is 22 + (14 + rowHeaderSize + p) + 14, and
70 + rowHeaderSize when p = 20. -/
theorem single_row_transaction_length (crc : List Nat → Nat) (s : DRTupleStream)
    (txnId spHandle : Int) (a : AppendArgs) (endSpHandle : Int)
    (hidle : s.window = none)
    (hbegin : DRTupleStream.BEGIN_RECORD_SIZE ≤ s.maxRecordSize)
    (hrow : a.recordSize ≤ s.maxRecordSize) :
    ∃ s3 : DRTupleStream,
      s.singleRowTransaction crc txnId spHandle a endSpHandle = .ok s3 ()
        ∧ s3.buffer = s.buffer ++ (beginRecord crc txnId spHandle
            ++ rowRecord crc a.tableHandle a.tuple a.type ++ endRecord crc endSpHandle)
        ∧ s3.buffer.length = s.buffer.length
            + (DRTupleStream.BEGIN_RECORD_SIZE
              + (DRTupleStream.TXN_RECORD_HEADER_SIZE + a.tuple.rowHeader.length
                  + a.tuple.payload.length)
              + DRTupleStream.END_RECORD_SIZE)
        ∧ (beginRecord crc txnId spHandle ++ rowRecord crc a.tableHandle a.tuple a.type
              ++ endRecord crc endSpHandle).length
            = 22 + (14 + a.tuple.rowHeader.length + a.tuple.payload.length) + 14
        ∧ (a.tuple.payload.length = 20 →
            (beginRecord crc txnId spHandle ++ rowRecord crc a.tableHandle a.tuple a.type
              ++ endRecord crc endSpHandle).length = 70 + a.tuple.rowHeader.length) := by
  have hb := beginTransaction_ok crc s txnId spHandle hidle hbegin
  have hend : DRTupleStream.END_RECORD_SIZE ≤ s.maxRecordSize := by
    simp only [AppendArgs.recordSize, DRTupleStream.TXN_RECORD_HEADER_SIZE] at hrow
    simp only [DRTupleStream.END_RECORD_SIZE]
    omega
  have ha := appendTuple_ok crc
    { s with
      buffer := s.buffer ++ beginRecord crc txnId spHandle
      window := some { txnId := txnId, spHandle := spHandle, offset := s.buffer.length } }
    a rfl hrow
  have he := endTransaction_ok crc
    { s with
      buffer := (s.buffer ++ beginRecord crc txnId spHandle)
        ++ rowRecord crc a.tableHandle a.tuple a.type
      window := some { txnId := txnId, spHandle := spHandle, offset := s.buffer.length } }
    endSpHandle rfl hend
  have hlen : (beginRecord crc txnId spHandle ++ rowRecord crc a.tableHandle a.tuple a.type
      ++ endRecord crc endSpHandle).length
        = 22 + (14 + a.tuple.rowHeader.length + a.tuple.payload.length) + 14 := by
    simp only [List.length_append, beginRecord_length, rowRecord_length, endRecord_length,
      DRTupleStream.BEGIN_RECORD_SIZE, DRTupleStream.TXN_RECORD_HEADER_SIZE,
      DRTupleStream.END_RECORD_SIZE]
  refine ⟨{ s with
            buffer := ((s.buffer ++ beginRecord crc txnId spHandle)
              ++ rowRecord crc a.tableHandle a.tuple a.type) ++ endRecord crc endSpHandle
            window := none
            lastCommittedSpHandle := endSpHandle }, ?_, ?_, ?_, hlen, ?_⟩
  · simp only [DRTupleStream.singleRowTransaction, hb, Outcome.bind, ha]
    exact he
  · simp only [List.append_assoc]
  · simp only [List.length_append, beginRecord_length, rowRecord_length, endRecord_length]
    omega
  · intro hp
    rw [hlen, hp]
    omega

/-- C5 on the example of the specification: txnId 100, spHandle 5000, an INSERT
on table signature 42 with a 20-byte payload and a 2-byte row header. -/
theorem single_row_transaction_length_witness :
    freshStream.window = none
      ∧ DRTupleStream.BEGIN_RECORD_SIZE ≤ freshStream.maxRecordSize
      ∧ exampleAppend.recordSize ≤ freshStream.maxRecordSize
      ∧ ∃ s3 : DRTupleStream,
          freshStream.singleRowTransaction sumChecksum 100 5000 exampleAppend 5000 = .ok s3 ()
            ∧ s3.buffer.length = 72 := by
  refine ⟨rfl, by decide, by decide, ?_⟩
  obtain ⟨s3, h1, _, h3, _, _⟩ :=
    single_row_transaction_length sumChecksum freshStream 100 5000 exampleAppend 5000 rfl
      (by decide) (by decide)
  exact ⟨s3, h1, by rw [h3]; decide⟩

/-- C7: `appendTuple` called while no transaction is open fails fatally, and
`beginTransaction` called while a transaction is already open fails fatally;
in both cases the stream at the fatal termination is the stream before the
call, so no record was written to the buffer. -/
theorem calls_outside_protocol_are_fatal (crc : List Nat → Nat) (sIdle sOpen : DRTupleStream)
    (w : OpenTransaction) (a : AppendArgs) (txnId spHandle : Int)
    (hidle : sIdle.window = none) (hopen : sOpen.window = some w) :
    sIdle.appendTuple crc a.lastCommittedSpHandle a.tableHandle a.txnId a.spHandle a.tuple a.type
        = .fatal sIdle .appendOutsideTransaction
      ∧ (sIdle.appendTuple crc a.lastCommittedSpHandle a.tableHandle a.txnId a.spHandle a.tuple
            a.type).state.buffer = sIdle.buffer
      ∧ sOpen.beginTransaction crc txnId spHandle = .fatal sOpen .transactionAlreadyOpen
      ∧ (sOpen.beginTransaction crc txnId spHandle).state.buffer = sOpen.buffer := by
  have h1 : sIdle.appendTuple crc a.lastCommittedSpHandle a.tableHandle a.txnId a.spHandle
      a.tuple a.type = .fatal sIdle .appendOutsideTransaction := by
    simp only [DRTupleStream.appendTuple, hidle]
  have h2 : sOpen.beginTransaction crc txnId spHandle
      = .fatal sOpen .transactionAlreadyOpen := by
    simp only [DRTupleStream.beginTransaction, hopen]
  refine ⟨h1, ?_, h2, ?_⟩
  · rw [h1]; rfl
  · rw [h2]; rfl

/-- C7 on a fresh (idle) stream and on the same stream after a `beginTransaction`. -/
theorem calls_outside_protocol_are_fatal_witness :
    freshStream.window = none
      ∧ (freshStream.beginTransaction sumChecksum 100 5000).state.window
          = some { txnId := 100, spHandle := 5000, offset := 0 }
      ∧ freshStream.appendTuple sumChecksum 4999 42 100 5000 exampleTuple .INSERT
          = .fatal freshStream .appendOutsideTransaction
      ∧ (freshStream.beginTransaction sumChecksum 100 5000).state.beginTransaction sumChecksum
            101 5001
          = .fatal (freshStream.beginTransaction sumChecksum 100 5000).state
              .transactionAlreadyOpen := by
  have h := calls_outside_protocol_are_fatal sumChecksum freshStream
    (freshStream.beginTransaction sumChecksum 100 5000).state
    { txnId := 100, spHandle := 5000, offset := 0 } exampleAppend 101 5001 rfl (by decide)
  exact ⟨rfl, by decide, h.1, h.2.2.1⟩

/-- C8: for every idle stream, every `beginTransaction` and every k change
records appended after it (all accepted by the stream), rollback to the offset
recorded at `beginTransaction` removes the k records and the BEGIN_TXN record:
the stream after rollback is the stream before `beginTransaction`, its buffer
byte for byte and its write cursor included. -/
theorem rollback_restores_pre_begin_state (crc : List Nat → Nat) (s : DRTupleStream)
    (txnId spHandle : Int) (args : List AppendArgs)
    (hidle : s.window = none)
    (hbegin : DRTupleStream.BEGIN_RECORD_SIZE ≤ s.maxRecordSize)
    (hfit : ∀ a ∈ args, a.recordSize ≤ s.maxRecordSize) :
    ∃ (s1 s2 : DRTupleStream) (w : OpenTransaction),
      s.beginTransaction crc txnId spHandle = .ok s1 ()
        ∧ s1.window = some w
        ∧ w.offset = s.buffer.length
        ∧ s1.appendAll crc args = .ok s2 (args.map AppendArgs.recordSize)
        ∧ s2.buffer = s.buffer ++ (beginRecord crc txnId spHandle ++ rowRecords crc args)
        ∧ s2.buffer.length = s.buffer.length + DRTupleStream.BEGIN_RECORD_SIZE
            + (args.map AppendArgs.recordSize).sum
        ∧ (s2.rollbackTo w.offset).buffer = s.buffer
        ∧ (s2.rollbackTo w.offset).buffer.length = s.buffer.length
        ∧ s2.rollbackTo w.offset = s := by
  have hb := beginTransaction_ok crc s txnId spHandle hidle hbegin
  have ha := appendAll_ok crc
    { s with
      buffer := s.buffer ++ beginRecord crc txnId spHandle
      window := some { txnId := txnId, spHandle := spHandle, offset := s.buffer.length } }
    args rfl hfit
  have hroll : DRTupleStream.rollbackTo
      { s with
        buffer := (s.buffer ++ beginRecord crc txnId spHandle) ++ rowRecords crc args
        window := some { txnId := txnId, spHandle := spHandle, offset := s.buffer.length } }
      s.buffer.length = s := by
    obtain ⟨⟨buffer, pushed, window, lastCommitted, maxRecordSize⟩, en, pid⟩ := s
    simp only at hidle
    simp [DRTupleStream.rollbackTo, hidle]
  refine ⟨_, _, _, hb, rfl, rfl, ha, ?_, ?_, ?_, ?_, hroll⟩
  · simp only [List.append_assoc]
  · simp only [List.length_append, beginRecord_length, rowRecords_length]
  · exact congrArg (fun t : DRTupleStream => t.buffer) hroll
  · exact congrArg (fun t : DRTupleStream => t.buffer.length) hroll

/-- C8 on a stream that already holds five bytes, with k = 2 appended records. -/
theorem rollback_restores_pre_begin_state_witness :
    ({ freshStream with buffer := [9, 8, 7, 6, 5] } : DRTupleStream).window = none
      ∧ DRTupleStream.BEGIN_RECORD_SIZE ≤ freshStream.maxRecordSize
      ∧ (∀ a ∈ [exampleAppend, exampleAppend], a.recordSize ≤ freshStream.maxRecordSize)
      ∧ ∃ (s1 s2 : DRTupleStream) (w : OpenTransaction),
          ({ freshStream with buffer := [9, 8, 7, 6, 5] } : DRTupleStream).beginTransaction
              sumChecksum 100 5000 = .ok s1 ()
            ∧ s1.appendAll sumChecksum [exampleAppend, exampleAppend] = .ok s2 [36, 36]
            ∧ s2.buffer.length = 99
            ∧ w.offset = 5
            ∧ (s2.rollbackTo w.offset).buffer = [9, 8, 7, 6, 5] := by
  have hfit : ∀ a ∈ [exampleAppend, exampleAppend], a.recordSize ≤ freshStream.maxRecordSize := by
    intro a ha
    simp only [List.mem_cons, List.mem_singleton, List.not_mem_nil, or_false, or_self] at ha
    subst ha
    decide
  obtain ⟨s1, s2, w, h1, _, h3, h4, _, h6, h7, _, _⟩ :=
    rollback_restores_pre_begin_state sumChecksum
      ({ freshStream with buffer := [9, 8, 7, 6, 5] } : DRTupleStream) 100 5000
      [exampleAppend, exampleAppend] rfl (by decide) hfit
  exact ⟨rfl, by decide, hfit, s1, s2, w, h1, h4, by rw [h6]; decide, h3, h7⟩

end voltdb
